import Mathlib

/-!
Verification of the Expo push-notification Lambda handler.

Shallow embedding of `src/http_handler.rs` from
`katayama8000/expo-push-notification-api-rust-on-lambda`.

The handler is an AWS Lambda HTTP function. External collaborators
(the Supabase datastore, the `serde_json` parser outcome, the Expo
push-token format predicate, the Expo message builder and the push
transport) are modelled as oracle parameters collected in a `Collab`
structure, exactly as the spec treats them: narrow interfaces whose
internals are out of scope. The handler itself — authentication gate,
method switch, payload validation, message construction, response
mapping — is translated branch by branch from the Rust source.

To make "collaborator X is (not) called" statable, the embedded handler
returns, besides its `Except` result, a trace of collaborator events
(`dbQuery`, `build`, `send`) in the order they occur.
-/

namespace PushApi

/-- Model of `serde_json::Value`. -/
inductive Json where
  | null
  | bool (b : Bool)
  | num (n : Int)
  | str (s : String)
  | arr (elems : List Json)
  | obj (fields : List (String × Json))
  deriving Repr

/-- Indexing `value[key]` on a `serde_json::Value`: field lookup on objects,
`Null` for a missing key or a non-object. -/
def Json.getField (j : Json) (key : String) : Json :=
  match j with
  | .obj fields =>
    match fields.find? (fun kv => kv.1 == key) with
    | some kv => kv.2
    | none => .null
  | _ => .null

/-- Model of `Value::as_str`: `Some` exactly on JSON strings. -/
def Json.asStr : Json → Option String
  | .str s => some s
  | _ => none

/-- Model of `lambda_http::Body`: text, binary, or empty. Bytes are `Nat`s
(each meaningful value is < 256; the decoder rejects anything ≥ 0x80
that does not fit a UTF-8 sequence, so larger numbers also fail). -/
inductive Body where
  | text (s : String)
  | binary (bytes : List Nat)
  | empty
  deriving Repr

/-- The distinct `lambda_http::Error` values the handler can return
(each constructor corresponds to one `Error::from(...)` site in the
source). -/
inductive HandlerError where
  /-- Site `Error::from("Unsupported body type")` in `extract_body`. -/
  | unsupportedBodyType
  /-- Site `Error::from(e)` for a `FromUtf8Error` in `extract_body`. -/
  | utf8Error
  /-- Site `Error::from(e)` for a `serde_json` parse error; carries the
  collaborator-reported message. -/
  | jsonParseError (msg : String)
  /-- Variant `SupabaseError::Initialization` converted to `Error`. -/
  | supabaseInit
  /-- Variant `SupabaseError::FetchTokens` converted to `Error`. -/
  | fetchTokens
  /-- Site `Error::from(e)` for a `ValidationError` from the message builder. -/
  | buildValidation
  deriving DecidableEq, Repr

/-- Response body: plain text (`"..."​.into()`) or a JSON document
(`json!({...}).to_string()`), kept structurally. -/
inductive RespBody where
  | text (s : String)
  | json (j : Json)
  deriving Repr

/-- Model of `http::Response` as the handler constructs it: status code, whether
the `Content-Type: application/json` header was set, and the body. -/
structure HttpResponse where
  status : Nat
  contentTypeJson : Bool
  body : RespBody
  deriving Repr

/-- The outbound `ExpoPushMessage`: the `to` field (recipients), title,
body and the rich-content image attached by the source. `to` is a Lean
keyword, so the field is named `recipients`. -/
structure ExpoPushMessage where
  recipients : List String
  title : String
  body : String
  richContentImage : Option String
  deriving DecidableEq, Repr

/-- Collaborator-call events, in pipeline order. -/
inductive Event where
  /-- Call `client.select("users").execute()` — the datastore query. -/
  | dbQuery
  /-- Call `ExpoPushMessage::builder(...).build()` invoked on `msg`. -/
  | build (msg : ExpoPushMessage)
  /-- Call `expo.send_push_notifications(msg)` invoked. -/
  | send (msg : ExpoPushMessage)
  deriving DecidableEq, Repr

/-- Oracles for the external collaborators. -/
structure Collab where
  /-- Whether `initialize_supabase_client()` succeeds (env vars present,
  client construction ok). -/
  supabaseInitOk : Bool
  /-- Whether `client.select("users").execute()` succeeds. -/
  dbFetchOk : Bool
  /-- The rows the datastore returns on success. -/
  dbRows : List Json
  /-- Predicate `Expo::is_expo_push_token` — the push-token format predicate. -/
  is_expo_push_token : String → Bool
  /-- Parser `serde_json::from_str` — JSON parse outcome per input string;
  errors carry the parse-error message. -/
  parse_json : String → Except String Json
  /-- Whether `ExpoPushMessage::builder(...).build()` accepts the message. -/
  build_ok : ExpoPushMessage → Bool
  /-- Whether `expo.send_push_notifications(msg)` reports success. -/
  send_ok : ExpoPushMessage → Bool

/-- An incoming `lambda_http::Request`: method string, the `x-api-key`
header if present, and the body. -/
structure Request where
  method : String
  x_api_key : Option String
  body : Body

/-- Is `b` a UTF-8 continuation byte (`0x80..=0xBF`)? -/
def isCont (b : Nat) : Bool := 0x80 ≤ b && b ≤ 0xBF

/-- Strict UTF-8 decoding, the validation performed by Rust's
`String::from_utf8`: rejects truncated sequences, stray continuation
bytes, overlong encodings, surrogate code points and values above
`0x10FFFF`. Returns the decoded characters on success. -/
def utf8Decode : List Nat → Option (List Char)
  | [] => some []
  | b :: rest =>
    if b ≤ 0x7F then
      (utf8Decode rest).map (fun cs => Char.ofNat b :: cs)
    else if 0xC2 ≤ b && b ≤ 0xDF then
      match rest with
      | b1 :: rest1 =>
        if isCont b1 then
          (utf8Decode rest1).map
            (fun cs => Char.ofNat ((b - 0xC0) * 0x40 + (b1 - 0x80)) :: cs)
        else none
      | [] => none
    else if 0xE0 ≤ b && b ≤ 0xEF then
      match rest with
      | b1 :: b2 :: rest2 =>
        let lowOk : Bool :=
          if b == 0xE0 then 0xA0 ≤ b1 && b1 ≤ 0xBF
          else if b == 0xED then 0x80 ≤ b1 && b1 ≤ 0x9F
          else isCont b1
        if lowOk && isCont b2 then
          (utf8Decode rest2).map
            (fun cs =>
              Char.ofNat ((b - 0xE0) * 0x1000 + (b1 - 0x80) * 0x40 + (b2 - 0x80)) :: cs)
        else none
      | _ => none
    else if 0xF0 ≤ b && b ≤ 0xF4 then
      match rest with
      | b1 :: b2 :: b3 :: rest3 =>
        let lowOk : Bool :=
          if b == 0xF0 then 0x90 ≤ b1 && b1 ≤ 0xBF
          else if b == 0xF4 then 0x80 ≤ b1 && b1 ≤ 0x8F
          else isCont b1
        if lowOk && isCont b2 && isCont b3 then
          (utf8Decode rest3).map
            (fun cs =>
              Char.ofNat ((b - 0xF0) * 0x40000 + (b1 - 0x80) * 0x1000 +
                (b2 - 0x80) * 0x40 + (b3 - 0x80)) :: cs)
        else none
      | _ => none
    else none

/-- Model of `String::from_utf8` on the body bytes. -/
def stringFromUtf8 (bytes : List Nat) : Option String :=
  (utf8Decode bytes).map List.asString

/-- First stage of `extract_body`: obtain `body_str` from the request
body, or fail before any JSON parsing. -/
def body_to_string : Body → Except HandlerError String
  | .text s => .ok s
  | .binary bytes =>
    match stringFromUtf8 bytes with
    | some s => .ok s
    | none => .error .utf8Error
  | .empty => .error .unsupportedBodyType

/-- Model of `extract_body`: body to string, then `serde_json::from_str`. -/
def extract_body (parse : String → Except String Json) (b : Body) :
    Except HandlerError Json := do
  let s ← body_to_string b
  match parse s with
  | .ok j => .ok j
  | .error e => .error (.jsonParseError e)

/-- The token projection inside `fetch_expo_push_tokens`: keep, in
order, the rows whose `expo_push_token` field is a string; silently
skip the rest. -/
def project_tokens (rows : List Json) : List String :=
  rows.filterMap (fun row => (row.getField "expo_push_token").asStr)

/-- Model of `fetch_expo_push_tokens`: the datastore query outcome (the `dbQuery`
event is emitted by the caller at the call site). -/
def fetch_expo_push_tokens (c : Collab) : Except HandlerError (List String) :=
  if c.dbFetchOk then .ok (project_tokens c.dbRows) else .error .fetchTokens

/-- The hardcoded default title (`"25日だよ"`). -/
def default_title : String := "25日だよ"

/-- The hardcoded default body (`"パートナーに請求しよう"`). -/
def default_body : String := "パートナーに請求しよう"

/-- The fixed rich-content image URL the source always attaches. -/
def rich_content_image : String := "https://picsum.photos/200/300"

/-- A `400/405/500` response: status, `Content-Type: application/json`,
body `{"error": msg}`. -/
def jsonErrorResp (status : Nat) (msg : String) : HttpResponse :=
  ⟨status, true, .json (.obj [("error", .str msg)])⟩

/-- The success response: `200`, JSON content type,
body `{"message": "Push notification sent successfully"}`. -/
def successResp : HttpResponse :=
  ⟨200, true, .json (.obj [("message", .str "Push notification sent successfully")])⟩

/-- The tail of `function_handler` after tokens/title/body are
resolved: build the `ExpoPushMessage` (with the fixed rich-content
image), propagate a build failure as an error, otherwise send and map
the transport outcome to 200/500. `tr` is the trace accumulated so
far. `built_message` is the message value
`ExpoPushMessage::builder(tokens).title(title).body(bodyText).rich_content(image)`
produces. -/
def built_message (tokens : List String) (title bodyText : String) :
    ExpoPushMessage :=
  ⟨tokens, title, bodyText, some rich_content_image⟩

def build_and_send (c : Collab) (tokens : List String) (title bodyText : String)
    (tr : List Event) : Except HandlerError HttpResponse × List Event :=
  let m : ExpoPushMessage := built_message tokens title bodyText
  if c.build_ok m then
    ( .ok (if c.send_ok m then successResp
           else jsonErrorResp 500 "Failed to send push notification"),
      tr ++ [.build m, .send m] )
  else
    (.error .buildValidation, tr ++ [.build m])

/-- Model of `function_handler`, translated branch by branch from the source.
`api_key` is the configured `API_KEY` value (the source panics before
reaching this logic when it is unset, and rejects non-header-safe
values; both are outside the modelled pipeline). The result pairs the
handler's `Result<Response, Error>` with the collaborator-event
trace. -/
def function_handler (api_key : String) (c : Collab) (event : Request) :
    Except HandlerError HttpResponse × List Event :=
  if event.x_api_key ≠ some api_key then
    (.ok ⟨403, false, .text "Forbidden: Invalid API Key"⟩, [])
  else
    match event.method with
    | "GET" =>
      if c.supabaseInitOk then
        match fetch_expo_push_tokens c with
        | .ok tokens => build_and_send c tokens default_title default_body [.dbQuery]
        | .error e => (.error e, [.dbQuery])
      else
        (.error .supabaseInit, [])
    | "POST" =>
      match extract_body c.parse_json event.body with
      | .error e => (.error e, [])
      | .ok json_body =>
        match (json_body.getField "title").asStr with
        | none => (.ok (jsonErrorResp 400 "Title is required"), [])
        | some t =>
          match (json_body.getField "body").asStr with
          | none => (.ok (jsonErrorResp 400 "Body is required"), [])
          | some b =>
            match (json_body.getField "expo_push_token").asStr with
            | none => (.ok (jsonErrorResp 400 "expo_push_token is required"), [])
            | some token =>
              if c.is_expo_push_token token then
                build_and_send c [token] t b []
              else
                (.ok (jsonErrorResp 400 "Invalid expo push token"), [])
    | _ => (.ok (jsonErrorResp 405 "Method not allowed"), [])

/-! ## Claim theorems -/

/-- A concrete collaborator set used by witnesses: a healthy datastore
with two rows (one lacking a string token), an equality-based token
format predicate, a parser returning a fixed document, and a transport
that accepts and succeeds. -/
def okCollab : Collab where
  supabaseInitOk := true
  dbFetchOk := true
  dbRows := [Json.obj [("expo_push_token", Json.str "ExponentPushToken[aaa]")],
             Json.obj [("name", Json.str "norow")]]
  is_expo_push_token := fun s => s == "ExponentPushToken[aaa]"
  parse_json := fun _ => .ok (Json.obj [])
  build_ok := fun _ => true
  send_ok := fun _ => true

/-- C1: a request whose `x-api-key` header is missing or differs from
the configured key gets HTTP 403 and the pipeline performs no
collaborator calls: the result is exactly the 403 response and the
collaborator-event trace is empty (no datastore query, no message
build, no transport send). -/
theorem forbidden_no_collaborator_calls (api_key : String) (c : Collab)
    (req : Request) (h : req.x_api_key ≠ some api_key) :
    function_handler api_key c req =
      (.ok ⟨403, false, .text "Forbidden: Invalid API Key"⟩, []) := by
  simp [function_handler, h]

theorem forbidden_no_collaborator_calls_witness :
    (some "wrong" : Option String) ≠ some "secret" ∧
    function_handler "secret" okCollab ⟨"GET", some "wrong", .empty⟩ =
      (.ok ⟨403, false, .text "Forbidden: Invalid API Key"⟩, []) :=
  ⟨by decide, forbidden_no_collaborator_calls "secret" okCollab _ (by decide)⟩

/-- C8: an authenticated request whose method is neither GET nor POST
gets HTTP 405 with body `{"error": "Method not allowed"}`, and no
auth-downstream business logic runs: the collaborator-event trace is
empty. -/
theorem method_not_allowed_no_business_logic (api_key : String) (c : Collab)
    (req : Request) (hk : req.x_api_key = some api_key)
    (h1 : req.method ≠ "GET") (h2 : req.method ≠ "POST") :
    function_handler api_key c req =
      (.ok (jsonErrorResp 405 "Method not allowed"), []) := by
  unfold function_handler
  rw [if_neg (by simp [hk])]
  split
  · simp_all
  · simp_all
  · rfl

theorem method_not_allowed_no_business_logic_witness :
    (some "secret" : Option String) = some "secret" ∧
    ("DELETE" : String) ≠ "GET" ∧ ("DELETE" : String) ≠ "POST" ∧
    function_handler "secret" okCollab ⟨"DELETE", some "secret", .empty⟩ =
      (.ok (jsonErrorResp 405 "Method not allowed"), []) :=
  ⟨rfl, by decide, by decide,
    method_not_allowed_no_business_logic "secret" okCollab _ rfl (by decide) (by decide)⟩

/-- Helper: on an authenticated GET with a healthy datastore, the
handler is the build-and-send tail applied to the projected tokens and
the default title/body, after one datastore query. -/
theorem function_handler_get_eq (api_key : String) (c : Collab) (req : Request)
    (hk : req.x_api_key = some api_key) (hm : req.method = "GET")
    (hi : c.supabaseInitOk = true) (hf : c.dbFetchOk = true) :
    function_handler api_key c req =
      build_and_send c (project_tokens c.dbRows) default_title default_body
        [.dbQuery] := by
  unfold function_handler
  rw [if_neg (by simp [hk]), hm]
  simp [hi, fetch_expo_push_tokens, hf]

/-- Helper: on an authenticated POST whose body extracts to `j`, the
handler is the title → body → token validation chain over `j`. -/
theorem function_handler_post_eq (api_key : String) (c : Collab) (req : Request)
    (j : Json) (hk : req.x_api_key = some api_key) (hm : req.method = "POST")
    (hj : extract_body c.parse_json req.body = .ok j) :
    function_handler api_key c req =
      (match (j.getField "title").asStr with
       | none => (.ok (jsonErrorResp 400 "Title is required"), [])
       | some t =>
         match (j.getField "body").asStr with
         | none => (.ok (jsonErrorResp 400 "Body is required"), [])
         | some b =>
           match (j.getField "expo_push_token").asStr with
           | none => (.ok (jsonErrorResp 400 "expo_push_token is required"), [])
           | some token =>
             if c.is_expo_push_token token then build_and_send c [token] t b []
             else (.ok (jsonErrorResp 400 "Invalid expo push token"), [])) := by
  unfold function_handler
  rw [if_neg (by simp [hk]), hm, hj]
  rfl

/-- C2: on an authenticated POST whose body extracts to JSON `j`, the
validation checks run in the order title, then body, then
`expo_push_token`; the first failing check yields HTTP 400 with exactly
its JSON error body (`Title is required`, `Body is required`,
`expo_push_token is required`, `Invalid expo push token`), and no later
check influences the response. -/
theorem post_validation_first_failure_wins (api_key : String) (c : Collab)
    (req : Request) (j : Json)
    (hk : req.x_api_key = some api_key) (hm : req.method = "POST")
    (hj : extract_body c.parse_json req.body = .ok j) :
    ((j.getField "title").asStr = none →
      (function_handler api_key c req).1 =
        .ok (jsonErrorResp 400 "Title is required")) ∧
    (∀ t, (j.getField "title").asStr = some t →
      (j.getField "body").asStr = none →
      (function_handler api_key c req).1 =
        .ok (jsonErrorResp 400 "Body is required")) ∧
    (∀ t b, (j.getField "title").asStr = some t →
      (j.getField "body").asStr = some b →
      (j.getField "expo_push_token").asStr = none →
      (function_handler api_key c req).1 =
        .ok (jsonErrorResp 400 "expo_push_token is required")) ∧
    (∀ t b tok, (j.getField "title").asStr = some t →
      (j.getField "body").asStr = some b →
      (j.getField "expo_push_token").asStr = some tok →
      c.is_expo_push_token tok = false →
      (function_handler api_key c req).1 =
        .ok (jsonErrorResp 400 "Invalid expo push token")) := by
  have h := function_handler_post_eq api_key c req j hk hm hj
  refine ⟨?_, ?_, ?_, ?_⟩
  · intro hT; rw [h, hT]
  · intro t hT hB; rw [h, hT, hB]
  · intro t b hT hB hTok; rw [h, hT, hB, hTok]
  · intro t b tok hT hB hTok hPred; rw [h, hT, hB, hTok]; simp [hPred]

/-- Collaborators whose parser returns a document with only a title,
used by the C2 witness. -/
def titleOnlyCollab : Collab :=
  { okCollab with parse_json := fun _ => .ok (Json.obj [("title", Json.str "T")]) }

/-- Witness for C2 at the body-missing stage: a POST whose JSON has a
title but no body yields exactly `{"error": "Body is required"}`. -/
theorem post_validation_first_failure_wins_witness :
    (function_handler "secret" titleOnlyCollab
        ⟨"POST", some "secret", .text "x"⟩).1 =
      .ok (jsonErrorResp 400 "Body is required") :=
  (post_validation_first_failure_wins "secret" titleOnlyCollab
      ⟨"POST", some "secret", .text "x"⟩
      (Json.obj [("title", Json.str "T")]) rfl rfl rfl).2.1 "T" rfl rfl

/-- C3: on an authenticated GET with a healthy datastore, the trace
contains exactly one datastore query, and every message handed to the
builder has as recipients exactly the projection of the returned rows
onto their `expo_push_token` string values — rows without a string
token skipped, order preserved (`project_tokens` is an order-preserving
`filterMap`). -/
theorem get_queries_datastore_once_and_projects (api_key : String) (c : Collab)
    (req : Request) (hk : req.x_api_key = some api_key)
    (hm : req.method = "GET") (hi : c.supabaseInitOk = true)
    (hf : c.dbFetchOk = true) :
    ((function_handler api_key c req).2.count Event.dbQuery = 1) ∧
    (∀ m : ExpoPushMessage,
      Event.build m ∈ (function_handler api_key c req).2 →
      m.recipients = project_tokens c.dbRows) := by
  rw [function_handler_get_eq api_key c req hk hm hi hf]
  unfold build_and_send
  dsimp only
  constructor
  · split <;> simp [List.count_cons, List.count_append]
  · intro m hmem
    split at hmem <;> simp at hmem <;> subst hmem <;> simp [built_message]

theorem get_queries_datastore_once_and_projects_witness :
    ((function_handler "secret" okCollab ⟨"GET", some "secret", .empty⟩).2.count
        Event.dbQuery = 1) ∧
    (∀ m : ExpoPushMessage,
      Event.build m ∈
        (function_handler "secret" okCollab ⟨"GET", some "secret", .empty⟩).2 →
      m.recipients = project_tokens okCollab.dbRows) :=
  get_queries_datastore_once_and_projects "secret" okCollab
    ⟨"GET", some "secret", .empty⟩ rfl rfl rfl rfl

/-- C4: the dispatch tail of the handler (shared by the GET and POST
paths) maps the transport outcome to the response: transport success
yields HTTP 200 with body `{"message": "Push notification sent
successfully"}`, transport failure yields HTTP 500 with exactly the
generic body `{"error": "Failed to send push notification"}` — the
transport outcome being a bare success/failure bit, no failure detail
can reach the caller. -/
theorem dispatch_outcome_response_mapping (c : Collab) (tokens : List String)
    (title bodyText : String) (tr : List Event)
    (hb : c.build_ok (built_message tokens title bodyText) = true) :
    (c.send_ok (built_message tokens title bodyText) = true →
      (build_and_send c tokens title bodyText tr).1 = .ok successResp) ∧
    (c.send_ok (built_message tokens title bodyText) = false →
      (build_and_send c tokens title bodyText tr).1 =
        .ok (jsonErrorResp 500 "Failed to send push notification")) := by
  unfold build_and_send
  constructor <;> intro hs <;> simp [hb, hs]

theorem dispatch_outcome_response_mapping_witness :
    okCollab.build_ok (built_message ["tok"] "T" "B") = true ∧
    (build_and_send okCollab ["tok"] "T" "B" []).1 = .ok successResp :=
  ⟨rfl, (dispatch_outcome_response_mapping okCollab ["tok"] "T" "B" [] rfl).1 rfl⟩

/-- A datastore returning one row whose stored token the format
predicate rejects; everything else healthy. Used to refute C5 on the
GET path. -/
def badTokenCollab : Collab where
  supabaseInitOk := true
  dbFetchOk := true
  dbRows := [Json.obj [("expo_push_token", Json.str "bad-token")]]
  is_expo_push_token := fun s => s == "ExponentPushToken[aaa]"
  parse_json := fun _ => .error "unused"
  build_ok := fun _ => true
  send_ok := fun _ => true

/-- C5 fails as stated: on the GET path the handler never applies the
push-token format predicate, so a malformed token stored in the
datastore reaches the message builder. Concretely, with the datastore
returning the single token `"bad-token"`, the built message's
recipients contain `"bad-token"` although the predicate rejects it. -/
theorem get_token_reaches_builder_unvalidated :
    Event.build (built_message ["bad-token"] default_title default_body) ∈
      (function_handler "secret" badTokenCollab
        ⟨"GET", some "secret", .empty⟩).2 ∧
    "bad-token" ∈
      (built_message ["bad-token"] default_title default_body).recipients ∧
    badTokenCollab.is_expo_push_token "bad-token" = false := by
  refine ⟨?_, ?_, ?_⟩ <;> decide

/-- C5 amended: the invariant holds on the POST path only — every token
in the recipient list of a message handed to the builder on an
authenticated POST has passed the format predicate (the GET path passes
datastore tokens through unvalidated, as the counterexample shows). -/
theorem post_tokens_pass_predicate (api_key : String) (c : Collab)
    (req : Request) (j : Json)
    (hk : req.x_api_key = some api_key) (hm : req.method = "POST")
    (hj : extract_body c.parse_json req.body = .ok j) :
    ∀ m : ExpoPushMessage,
      Event.build m ∈ (function_handler api_key c req).2 →
      ∀ tok ∈ m.recipients, c.is_expo_push_token tok = true := by
  intro m hmem tok htok
  rw [function_handler_post_eq api_key c req j hk hm hj] at hmem
  split at hmem
  · simp at hmem
  · split at hmem
    · simp at hmem
    · split at hmem
      · simp at hmem
      · split at hmem
        · unfold build_and_send at hmem
          dsimp only at hmem
          split at hmem <;> simp at hmem <;> subst hmem <;>
            simp [built_message] at htok <;> subst htok <;> assumption
        · simp at hmem

/-- The JSON document of a fully valid POST payload. -/
def validPostDoc : Json :=
  Json.obj [("title", Json.str "T"), ("body", Json.str "B"),
            ("expo_push_token", Json.str "ExponentPushToken[aaa]")]

/-- Collaborators whose parser returns `validPostDoc`. -/
def validPostCollab : Collab :=
  { okCollab with parse_json := fun _ => .ok validPostDoc }

/-- The valid POST request used by several witnesses. -/
def validPostReq : Request := ⟨"POST", some "secret", .text "x"⟩

theorem post_tokens_pass_predicate_witness :
    validPostCollab.is_expo_push_token "ExponentPushToken[aaa]" = true :=
  post_tokens_pass_predicate "secret" validPostCollab validPostReq validPostDoc
    rfl rfl rfl (built_message ["ExponentPushToken[aaa]"] "T" "B") (by decide)
    "ExponentPushToken[aaa]" (by decide)

/-- C6 fails as stated: a binary body that is not UTF-8-decodable (the
single byte `0xFF`) makes `extract_body` fail with the UTF-8 conversion
error, not with `Unsupported body type` — the latter is produced only
for the `Body::Empty` case. (The parser argument is irrelevant here;
any stub will do.) -/
theorem invalid_utf8_body_error_mismatch :
    extract_body (fun _ => .ok Json.null) (Body.binary [0xFF]) =
      .error .utf8Error ∧
    HandlerError.utf8Error ≠ HandlerError.unsupportedBodyType := by
  exact ⟨rfl, by decide⟩

/-- C6 amended: an empty body fails with `Unsupported body type` and a
non-UTF-8-decodable binary body fails with the UTF-8 decode error; both
results are independent of the JSON parser (so no parsing is
attempted), and a text body that fails to parse yields the error
derived from the parse error. -/
theorem extract_body_stage_order (p q : String → Except String Json)
    (bytes : List Nat) (s e : String)
    (hbad : stringFromUtf8 bytes = none) (hperr : p s = .error e) :
    (extract_body p Body.empty = .error .unsupportedBodyType ∧
      extract_body p Body.empty = extract_body q Body.empty) ∧
    (extract_body p (Body.binary bytes) = .error .utf8Error ∧
      extract_body p (Body.binary bytes) = extract_body q (Body.binary bytes)) ∧
    extract_body p (Body.text s) = .error (.jsonParseError e) := by
  refine ⟨⟨rfl, rfl⟩, ⟨?_, ?_⟩, ?_⟩
  · simp [extract_body, body_to_string, hbad, Bind.bind, Except.bind]
  · simp [extract_body, body_to_string, hbad, Bind.bind, Except.bind]
  · simp [extract_body, body_to_string, hperr, Bind.bind, Except.bind]

theorem extract_body_stage_order_witness :
    stringFromUtf8 [0xFF] = none ∧
    (fun _ : String => (.error "expected value" : Except String Json)) "x" =
      .error "expected value" ∧
    extract_body (fun _ => .error "expected value") (Body.text "x") =
      .error (.jsonParseError "expected value") :=
  ⟨rfl, rfl,
    (extract_body_stage_order (fun _ => .error "expected value")
      (fun _ => .ok Json.null) [0xFF] "x" "expected value" rfl rfl).2.2⟩

/-- Collaborators whose parser returns a body with an invalid token and
no title field; the token predicate rejects `"bad"`. -/
def invalidTokenNoTitleCollab : Collab :=
  { okCollab with
      parse_json := fun _ => .ok (Json.obj [("expo_push_token", Json.str "bad")]) }

/-- C7 fails as stated: a POST whose `expo_push_token` is present and
fails the predicate but whose `title` is missing answers 400
`{"error": "Title is required"}`, not `{"error": "Invalid expo push
token"}` — the title check runs first. -/
theorem invalid_token_masked_by_missing_title :
    (function_handler "secret" invalidTokenNoTitleCollab
        ⟨"POST", some "secret", .text "x"⟩).1 =
      .ok (jsonErrorResp 400 "Title is required") ∧
    invalidTokenNoTitleCollab.is_expo_push_token "bad" = false ∧
    (.ok (jsonErrorResp 400 "Title is required") :
        Except HandlerError HttpResponse) ≠
      .ok (jsonErrorResp 400 "Invalid expo push token") := by
  refine ⟨rfl, rfl, ?_⟩
  simp [jsonErrorResp]

/-- C7 amended: for a POST whose `title` and `body` are present as
strings and whose `expo_push_token` is present but fails the format
predicate, the response is 400 `{"error": "Invalid expo push token"}`,
whatever the title and body strings are. -/
theorem invalid_token_response (api_key : String) (c : Collab) (req : Request)
    (j : Json) (t b tok : String)
    (hk : req.x_api_key = some api_key) (hm : req.method = "POST")
    (hj : extract_body c.parse_json req.body = .ok j)
    (hT : (j.getField "title").asStr = some t)
    (hB : (j.getField "body").asStr = some b)
    (hTok : (j.getField "expo_push_token").asStr = some tok)
    (hPred : c.is_expo_push_token tok = false) :
    (function_handler api_key c req).1 =
      .ok (jsonErrorResp 400 "Invalid expo push token") := by
  rw [function_handler_post_eq api_key c req j hk hm hj, hT, hB, hTok]
  simp [hPred]

/-- Collaborators whose parser returns a complete payload whose token
the predicate rejects. -/
def invalidTokenFullCollab : Collab :=
  { okCollab with
      parse_json := fun _ => .ok (Json.obj
        [("title", Json.str "T"), ("body", Json.str "B"),
         ("expo_push_token", Json.str "bad")]) }

theorem invalid_token_response_witness :
    (function_handler "secret" invalidTokenFullCollab
        ⟨"POST", some "secret", .text "x"⟩).1 =
      .ok (jsonErrorResp 400 "Invalid expo push token") :=
  invalid_token_response "secret" invalidTokenFullCollab
    ⟨"POST", some "secret", .text "x"⟩
    (Json.obj [("title", Json.str "T"), ("body", Json.str "B"),
               ("expo_push_token", Json.str "bad")])
    "T" "B" "bad" rfl rfl rfl rfl rfl rfl rfl

/-- A healthy collaborator set whose datastore holds no rows. -/
def emptyDbCollab : Collab := { okCollab with dbRows := [] }

/-- C9 fails as stated: when the datastore returns zero tokens on an
authenticated GET, the handler applies no empty-recipient policy — it
proceeds to build and dispatch a message whose recipient list is empty.
The trace shows the query, the build and the send, and the dispatched
message has no recipients. -/
theorem empty_recipients_dispatched_unchanged :
    (function_handler "secret" emptyDbCollab ⟨"GET", some "secret", .empty⟩).2 =
      [Event.dbQuery,
       Event.build (built_message [] default_title default_body),
       Event.send (built_message [] default_title default_body)] ∧
    (built_message [] default_title default_body).recipients = [] := by
  exact ⟨rfl, rfl⟩

/-- C9 amended: the recipients list is not guaranteed non-empty before
dispatch; on an authenticated GET whose datastore projection is empty
(and whose builder accepts the message), the handler builds and sends
the zero-recipient message unchanged. -/
theorem empty_recipients_sent_through (api_key : String) (c : Collab)
    (req : Request) (hk : req.x_api_key = some api_key)
    (hm : req.method = "GET") (hi : c.supabaseInitOk = true)
    (hf : c.dbFetchOk = true)
    (hempty : project_tokens c.dbRows = [])
    (hb : c.build_ok (built_message [] default_title default_body) = true) :
    (function_handler api_key c req).2 =
      [Event.dbQuery,
       Event.build (built_message [] default_title default_body),
       Event.send (built_message [] default_title default_body)] := by
  rw [function_handler_get_eq api_key c req hk hm hi hf, hempty]
  unfold build_and_send
  dsimp only
  simp [hb]

theorem empty_recipients_sent_through_witness :
    (function_handler "secret" emptyDbCollab ⟨"GET", some "secret", .empty⟩).2 =
      [Event.dbQuery,
       Event.build (built_message [] default_title default_body),
       Event.send (built_message [] default_title default_body)] :=
  empty_recipients_sent_through "secret" emptyDbCollab
    ⟨"GET", some "secret", .empty⟩ rfl rfl rfl rfl rfl rfl

/-- C10: the fixed defaults are used exactly when no payload resolves a
title/body — on the GET path every built message carries
`default_title`/`default_body`, while on the POST path every built
message carries exactly the payload's `title` and `body` strings (the
defaults are overwritten before any build happens). -/
theorem defaults_applied_exactly_on_get (api_key : String) (c : Collab)
    (req : Request) (hk : req.x_api_key = some api_key) :
    (req.method = "GET" → c.supabaseInitOk = true → c.dbFetchOk = true →
      ∀ m : ExpoPushMessage,
        Event.build m ∈ (function_handler api_key c req).2 →
        m.title = default_title ∧ m.body = default_body) ∧
    (req.method = "POST" →
      ∀ (j : Json) (t b : String),
        extract_body c.parse_json req.body = .ok j →
        (j.getField "title").asStr = some t →
        (j.getField "body").asStr = some b →
        ∀ m : ExpoPushMessage,
          Event.build m ∈ (function_handler api_key c req).2 →
          m.title = t ∧ m.body = b) := by
  constructor
  · intro hm hi hf m hmem
    rw [function_handler_get_eq api_key c req hk hm hi hf] at hmem
    unfold build_and_send at hmem
    dsimp only at hmem
    split at hmem <;> simp at hmem <;> subst hmem <;> simp [built_message]
  · intro hm j t b hj hT hB m hmem
    rw [function_handler_post_eq api_key c req j hk hm hj, hT, hB] at hmem
    dsimp only at hmem
    split at hmem
    · simp at hmem
    · split at hmem
      · unfold build_and_send at hmem
        dsimp only at hmem
        split at hmem <;> simp at hmem <;> subst hmem <;> simp [built_message]
      · simp at hmem

theorem defaults_applied_exactly_on_get_witness :
    (built_message (project_tokens okCollab.dbRows) default_title
        default_body).title = default_title ∧
    (built_message (project_tokens okCollab.dbRows) default_title
        default_body).body = default_body :=
  (defaults_applied_exactly_on_get "secret" okCollab
      ⟨"GET", some "secret", .empty⟩ rfl).1 rfl rfl rfl
    (built_message (project_tokens okCollab.dbRows) default_title default_body)
    (by decide)

end PushApi
